import Mathlib

/-!
Shallow embedding of the bpftrace semantic analyser
(src/src/ast/semantic_analyser.cpp and src/src/types.cpp) and proofs about it.

Node type annotations (the mutable `type` field of each AST node in C++) are
modelled as a side table keyed by a per-node identifier, threaded through the
analyser state.  Fallible C++ behaviour (`abort()`, null-pointer dereference,
`vector::at` out of range) is modelled by returning `Option.none`.
-/

namespace Bpftrace

/-- The kinds of values (enum `Type` of types.h, as consumed by types.cpp and
the analyser). -/
inductive Typ where
  | none
  | integer
  | quantize
  | count
  | stack
  | ustack
  | string
  | sym
  | usym
  | cast
deriving DecidableEq, Repr

/-- `typestr` from src/src/types.cpp.  The C++ switch covers every enum value
(the `default: abort()` arm is unreachable), so the Lean version is total. -/
def typestr : Typ → String
  | Typ.none => "none"
  | Typ.integer => "integer"
  | Typ.quantize => "quantize"
  | Typ.count => "count"
  | Typ.stack => "stack"
  | Typ.ustack => "ustack"
  | Typ.string => "string"
  | Typ.sym => "sym"
  | Typ.usym => "usym"
  | Typ.cast => "cast"

/-- `SizedType` (types.h, used throughout the analyser): a kind, a byte size
and a struct-name payload for cast-typed values.  A default-constructed
`SizedType` is `(none, 0, "")`. -/
structure SizedType where
  type : Typ
  size : Nat
  cast_type : String := ""
deriving DecidableEq, Repr

/-- `ProbeType` (types.h, as produced by `probetype` in types.cpp). -/
inductive ProbeType where
  | kprobe
  | kretprobe
  | uprobe
  | uretprobe
  | tracepoint
  | profile
deriving DecidableEq, Repr

/-- `probetype` from src/src/types.cpp.  Note that "BEGIN" and "END" map to
`ProbeType::uprobe`, and any other string reaches `abort()`, modelled as
`Option.none`. -/
def probetype (type : String) : Option ProbeType :=
  if type = "kprobe" then some ProbeType.kprobe
  else if type = "kretprobe" then some ProbeType.kretprobe
  else if type = "uprobe" then some ProbeType.uprobe
  else if type = "uretprobe" then some ProbeType.uretprobe
  else if type = "BEGIN" then some ProbeType.uprobe
  else if type = "END" then some ProbeType.uprobe
  else if type = "tracepoint" then some ProbeType.tracepoint
  else if type = "profile" then some ProbeType.profile
  else Option.none

/-- Modelled from the spec: `MapKey` lives in map_key.h, which is not under
src/.  Per the spec it is the ordered sequence of (kind, byte size) pairs of
a map's index arguments — as pushed by `SemanticAnalyser::visit(Map&)` via
`key.args_.push_back({expr->type.type, expr->type.size})` — and is compared
for exact equality of that sequence. -/
structure MapKey where
  args_ : List (Typ × Nat)
deriving DecidableEq, Repr

/-- Modelled from the spec: the operator tokens (`Parser::token` of
parser.tab.hh, not under src/); the analyser only inspects `EQ`, `NE` and
`MUL`. -/
inductive Op where
  | EQ
  | NE
  | LE
  | GE
  | LT
  | GT
  | LAND
  | LOR
  | PLUS
  | MINUS
  | MUL
  | DIV
  | MOD
  | BAND
  | BOR
  | LNOT
  | BNOT
deriving DecidableEq, Repr

/-- Modelled from the spec: fixed string capacity `STRING_SIZE` (defined in a
header that is not under src/; bpftrace uses 64). -/
def STRING_SIZE : Nat := 64

/-- One diagnostic appended to the analyser's error stream `err_`.  The C++
code streams human-readable text; each constructor stands for one distinct
message shape and carries the data interpolated into it. -/
inductive Diag where
  | stringTooLong (s : String)
  | unknownBuiltin (ident : String)
  | funcIncompatible (provider : String)
  | archArgUnsupported (arch : String) (ident : String)
  | deleteExpectsMap
  | invalidRegister (name : String) (arch : String)
  | formatStringError (msg : String)
  | unknownFunction (name : String)
  | argumentMismatch (ident : String) (access : MapKey) (expected : MapKey)
  | undefinedMap (ident : String)
  | undefinedVariable (ident : String)
  | binopTypeMismatch (op : Op) (lhs rhs : Typ)
  | binopInvalidType (op : Op) (t : Typ)
  | unopInvalidType (op : Op) (t : Typ)
  | derefNonPointer (cast_type : String)
  | fieldAccessNonCast (field : String) (t : Typ)
  | fieldAccessPointer (field : String) (cast_type : String)
  | noSuchField (cast_type : String) (field : String)
  | unknownStruct (name : String)
  | typeMismatch (ident : String) (assigned existing : Typ)
  | castTypeMismatch (ident : String) (assigned existing : String)
  | varTypeMismatch (ident : String) (assigned existing : Typ)
  | varCastTypeMismatch (ident : String) (assigned existing : String)
  | invalidPredicate (t : Typ)
  | kprobeTarget
  | kprobeNoFunc
  | uprobeNoTarget
  | uprobeNoFunc
  | tracepointNoTarget
  | profileNoUnit
  | profileBadUnit (unit : String)
  | profileFunc
  | profileFreq
  | beginEndTarget
  | multipleBEGIN
  | multipleEND
  | invalidProvider (provider : String)
  | assignToMap (func : String)
  | assignToVar (func : String)
  | assignToMapOrVar (func : String)
  | notInAssignment (func : String)
  | nargsMismatch (func : String) (expected got : Nat)
  | varargsMin (func : String) (min got : Nat)
  | varargsMax (func : String) (max got : Nat)
  | argLiteralMismatch (func : String) (want got : Typ)
  | argTypeMismatch (func : String) (want got : Typ)
deriving DecidableEq, Repr

/-- Modelled from the spec: the expression AST node shapes of ast.h (not
under src/), as listed in the spec and as consumed by the analyser.  Each
node carries an identifier `id` naming its mutable `type` annotation slot in
the analyser's side table. -/
inductive Expr where
  | integer (id : Nat) (n : Int)
  | str (id : Nat) (s : String)
  | builtin (id : Nat) (ident : String)
  | call (id : Nat) (func : String) (vargs : Option (List Expr))
      (hasMap : Bool) (hasVar : Bool)
  | map (id : Nat) (ident : String) (vargs : Option (List Expr))
  | var (id : Nat) (ident : String)
  | binop (id : Nat) (left : Expr) (op : Op) (right : Expr)
  | unop (id : Nat) (op : Op) (expr : Expr)
  | field (id : Nat) (expr : Expr) (fieldName : String)
  | cast (id : Nat) (cast_type : String) (expr : Expr)

/-- The node's type-annotation slot identifier. -/
def Expr.nodeId : Expr → Nat
  | Expr.integer id _ => id
  | Expr.str id _ => id
  | Expr.builtin id _ => id
  | Expr.call id _ _ _ _ => id
  | Expr.map id _ _ => id
  | Expr.var id _ => id
  | Expr.binop id _ _ _ => id
  | Expr.unop id _ _ => id
  | Expr.field id _ _ => id
  | Expr.cast id _ _ => id

/-- Modelled from the spec: `Expression::is_literal` (ast.h, not under
src/) — literal nodes are the Integer and String literals. -/
def Expr.is_literal : Expr → Bool
  | Expr.integer _ _ => true
  | Expr.str _ _ => true
  | _ => false

/-- Modelled from the spec: `Expression::is_map` (ast.h, not under src/) —
set on Map nodes. -/
def Expr.is_map : Expr → Bool
  | Expr.map _ _ _ => true
  | _ => false

/-- The string payload of a String literal node.  Models the analyser's
`static_cast<String&>(arg).str`, which in the C++ code is only reached when
the argument has been checked to be a string literal. -/
def Expr.strVal : Expr → String
  | Expr.str _ s => s
  | _ => ""

/-- Modelled from the spec: the `AttachPoint` node of ast.h (not under
src/): provider, target, function name, frequency. -/
structure AttachPoint where
  provider : String
  target : String
  func : String
  freq : Int := 0

/-- Modelled from the spec: the statement AST nodes of ast.h (not under
src/).  `assignMap` carries the fields of its Map target node and
`assignVar` the fields of its Variable target node inline. -/
inductive Statement where
  | exprStatement (expr : Expr)
  | assignMap (mapId : Nat) (mapIdent : String) (mapVargs : Option (List Expr))
      (expr : Expr)
  | assignVar (varId : Nat) (varIdent : String) (expr : Expr)

/-- Modelled from the spec: the `Probe` node of ast.h (not under src/):
attach points, optional predicate, statements. -/
structure Probe where
  attach_points : List AttachPoint
  pred : Option Expr := Option.none
  stmts : List Statement := []

/-- Modelled from the spec: the `Program` node of ast.h (not under src/):
includes (whose visit is a no-op) and probes. -/
structure Program where
  includes : List Unit := []
  probes : List Probe

/-- Modelled from the spec: a struct field as found in the struct/union
registry (`bpftrace_.structs_`, declared outside src/); the analyser only
reads its `type`. -/
structure StructField where
  type : SizedType
deriving DecidableEq, Repr

/-- Modelled from the spec: a struct/union registry entry — named fields
and total size. -/
structure StructInfo where
  fields : List (String × StructField) := []
  size : Nat := 0
deriving DecidableEq, Repr

/-- Modelled from the spec: the external collaborators of the analyser (the
architecture service of arch/arch.h and the format-string verifier of
printf.h, not under src/), read-only. -/
structure Env where
  max_arg : Int
  arch_name : String
  offset : String → Int
  verify_format_string : String → List SizedType → String

/-- Association-list lookup (models `std::map::find`). -/
def lookupA {κ α : Type} [DecidableEq κ] (k : κ) : List (κ × α) → Option α
  | [] => Option.none
  | (k2, v) :: rest => if k = k2 then some v else lookupA k rest

/-- Association-list in-place update of an existing entry, appending when the
key is absent (models writing through a found iterator / `operator[]`). -/
def updateA {κ α : Type} [DecidableEq κ] (k : κ) (v : α) :
    List (κ × α) → List (κ × α)
  | [] => [(k, v)]
  | (k2, v2) :: rest =>
      if k = k2 then (k2, v) :: rest else (k2, v2) :: updateA k v rest

/-- Models `map_val_[ident].cast_type = ct` / `variable_val_[ident].cast_type
= ct`: `operator[]` default-constructs a missing entry, then the field is
assigned. -/
def setCastA (k : String) (ct : String) :
    List (String × SizedType) → List (String × SizedType)
  | [] => [(k, ⟨Typ.none, 0, ct⟩)]
  | (k2, v) :: rest =>
      if k = k2 then (k2, { v with cast_type := ct }) :: rest
      else (k2, v) :: setCastA k ct rest

/-- Models `bpftrace_.structs_[name]`: returns the entry, default-inserting an
empty one when the name is absent (C++ `std::map::operator[]`). -/
def structsGet (name : String) (l : List (String × StructInfo)) :
    StructInfo × List (String × StructInfo) :=
  match lookupA name l with
  | some info => (info, l)
  | Option.none => (⟨[], 0⟩, l ++ [(name, ⟨[], 0⟩)])

/-- The mutable state of one `SemanticAnalyser` (fields of
semantic_analyser.h) together with the per-node type-annotation table and the
pieces of `bpftrace_` the analyser writes to. -/
structure AnalyserState where
  map_key_ : List (String × MapKey) := []
  map_val_ : List (String × SizedType) := []
  variable_val_ : List (String × SizedType) := []
  structs_ : List (String × StructInfo) := []
  needs_stackid_map_ : Bool := false
  has_begin_probe_ : Bool := false
  has_end_probe_ : Bool := false
  probe_ : Option Probe := Option.none
  pass_ : Nat := 1
  num_passes_ : Nat := 2
  err_ : List Diag := []
  out_ : List Diag := []
  printf_args_ : List (String × List SizedType) := []
  added_probes_ : Nat := 0
  node_types : List (Nat × SizedType) := []

/-- Append one diagnostic to the error stream `err_`. -/
def AnalyserState.addErr (st : AnalyserState) (d : Diag) : AnalyserState :=
  { st with err_ := st.err_ ++ [d] }

/-- The current value of a node's `type` field: the side-table entry, or the
default-constructed `SizedType` when the analyser has never written it. -/
def AnalyserState.typeOf (st : AnalyserState) (id : Nat) : SizedType :=
  (lookupA id st.node_types).getD ⟨Typ.none, 0, ""⟩

/-- Write a node's `type` field. -/
def AnalyserState.writeType (st : AnalyserState) (id : Nat) (t : SizedType) :
    AnalyserState :=
  { st with node_types := updateA id t st.node_types }

/-- `SemanticAnalyser::is_final_pass`. -/
def AnalyserState.is_final_pass (st : AnalyserState) : Bool :=
  st.pass_ = st.num_passes_

/-- `SemanticAnalyser::visit(Binop&)` after both operands were visited:
final-pass-only checks on the operand kinds. -/
def binopCheck (op : Op) (lhs rhs : Typ) (st : AnalyserState) : AnalyserState :=
  if st.is_final_pass then
    if lhs ≠ rhs then st.addErr (Diag.binopTypeMismatch op lhs rhs)
    else if lhs ≠ Typ.integer ∧ op ≠ Op.EQ ∧ op ≠ Op.NE then
      st.addErr (Diag.binopInvalidType op lhs)
    else st
  else st

/-- `SemanticAnalyser::visit(Unop&)` after the operand was visited, given the
operand's type.  In the dereference-of-a-non-pointer-cast branch the C++ code
reports the error and assigns no type to the node. -/
def unopBody (id : Nat) (op : Op) (et : SizedType) (st : AnalyserState) :
    AnalyserState :=
  let st :=
    if st.is_final_pass ∧ et.type ≠ Typ.integer ∧ et.type ≠ Typ.cast then
      st.addErr (Diag.unopInvalidType op et.type)
    else st
  if op = Op.MUL ∧ et.type = Typ.cast then
    let cast_type := et.cast_type
    if cast_type.back = '*' then
      st.writeType id ⟨Typ.cast, 8, cast_type.dropRight 1⟩
    else
      st.addErr (Diag.derefNonPointer cast_type)
  else
    st.writeType id ⟨Typ.integer, 8, ""⟩

/-- `SemanticAnalyser::visit(FieldAccess&)` after the base expression was
visited, given the base expression's type.  All three error branches return
without assigning a type to the node; the registry access uses
`operator[]`-with-default before the membership check. -/
def fieldAccessBody (id : Nat) (fieldName : String) (baseType : SizedType)
    (st : AnalyserState) : AnalyserState :=
  if baseType.type ≠ Typ.cast then
    if st.is_final_pass then
      st.addErr (Diag.fieldAccessNonCast fieldName baseType.type)
    else st
  else
    let cast_type := baseType.cast_type
    if cast_type.back = '*' then
      st.addErr (Diag.fieldAccessPointer fieldName cast_type)
    else
      let p := structsGet cast_type st.structs_
      let st := { st with structs_ := p.2 }
      match lookupA fieldName p.1.fields with
      | Option.none => st.addErr (Diag.noSuchField cast_type fieldName)
      | some f => st.writeType id f.type

/-- `SemanticAnalyser::visit(Cast&)` after the operand was visited.  The
struct-registry membership check is on the pointer-stripped name; the unknown
struct/union branch assigns no type. -/
def castBody (id : Nat) (cast_type : String) (st : AnalyserState) :
    AnalyserState :=
  let base := if cast_type.back = '*' then cast_type.dropRight 1 else cast_type
  match lookupA base st.structs_ with
  | Option.none => st.addErr (Diag.unknownStruct base)
  | some _ =>
      let cast_size : Nat :=
        if cast_type.back = '*' then 8  -- sizeof(uintptr_t) on a 64-bit target
        else ((lookupA cast_type st.structs_).getD ⟨[], 0⟩).size
      st.writeType id ⟨Typ.cast, cast_size, cast_type⟩

/-- `SemanticAnalyser::visit(Variable&)`: look up the recorded type; an absent
entry is an "Undefined variable" error on every pass. -/
def visitVariableBody (id : Nat) (ident : String) (st : AnalyserState) :
    AnalyserState :=
  match lookupA ident st.variable_val_ with
  | some t => st.writeType id t
  | Option.none =>
      (st.addErr (Diag.undefinedVariable ident)).writeType id ⟨Typ.none, 0, ""⟩

/-- The key-signature paragraph of `SemanticAnalyser::visit(Map&)`: the first
access registers the key; a later access with a different key appends an
"Argument mismatch" diagnostic listing both signatures, on every pass. -/
def mapKeyCheck (ident : String) (key : MapKey) (st : AnalyserState) :
    AnalyserState :=
  match lookupA ident st.map_key_ with
  | some k =>
      if k ≠ key then st.addErr (Diag.argumentMismatch ident key k) else st
  | Option.none => { st with map_key_ := st.map_key_ ++ [(ident, key)] }

/-- The value-type paragraph of `SemanticAnalyser::visit(Map&)`: adopt the
recorded value type; when absent, "Undefined map" on the final pass only and
type `none`. -/
def mapValAdopt (id : Nat) (ident : String) (st : AnalyserState) :
    AnalyserState :=
  match lookupA ident st.map_val_ with
  | some t => st.writeType id t
  | Option.none =>
      let st :=
        if st.is_final_pass then st.addErr (Diag.undefinedMap ident) else st
      st.writeType id ⟨Typ.none, 0, ""⟩

/-- `SemanticAnalyser::visit(Map&)` after the index arguments were visited and
the key built: the key-signature check, then the value-type adoption. -/
def visitMapBody (id : Nat) (ident : String) (key : MapKey)
    (st : AnalyserState) : AnalyserState :=
  mapValAdopt id ident (mapKeyCheck ident key st)

/-- The loop over the enclosing probe's attach points in the `func` branch of
`SemanticAnalyser::visit(Builtin&)`.  `probetype` aborts (`Option.none`) on an
unrecognised provider. -/
def funcAttachPoints (id : Nat) : List AttachPoint → AnalyserState →
    Option AnalyserState
  | [], st => some st
  | ap :: rest, st =>
      match probetype ap.provider with
      | Option.none => Option.none
      | some pt =>
          let st :=
            if pt = ProbeType.kprobe ∨ pt = ProbeType.kretprobe ∨
                pt = ProbeType.tracepoint then
              st.writeType id ⟨Typ.sym, 8, ""⟩
            else if pt = ProbeType.uprobe ∨ pt = ProbeType.uretprobe then
              st.writeType id ⟨Typ.usym, 8, ""⟩
            else st.addErr (Diag.funcIncompatible ap.provider)
          funcAttachPoints id rest st

/-- Is `ident` of the shape `argN` accepted by `visit(Builtin&)`:
first three characters "arg", length four, fourth character a digit. -/
def isArgN (ident : String) : Bool :=
  ident.take 3 = "arg" ∧ ident.length = 4 ∧
    ('0' ≤ (ident.toList.getD 3 ' ') ∧ (ident.toList.getD 3 ' ') ≤ '9')

/-- The numeric value of the digit of an `argN` builtin (`atoi` of the
substring after "arg"). -/
def argNum (ident : String) : Int :=
  ((ident.toList.getD 3 ' ').toNat : Int) - ('0'.toNat : Int)

/-- `SemanticAnalyser::visit(Builtin&)`.  Reading `probe_` while unset models
the C++ null-pointer dereference as `Option.none`. -/
def visitBuiltin (env : Env) (id : Nat) (ident : String) (st : AnalyserState) :
    Option AnalyserState :=
  if ident = "nsecs" ∨ ident = "pid" ∨ ident = "tid" ∨ ident = "uid" ∨
      ident = "gid" ∨ ident = "cpu" ∨ ident = "retval" then
    some (st.writeType id ⟨Typ.integer, 8, ""⟩)
  else if ident = "stack" then
    some { st.writeType id ⟨Typ.stack, 8, ""⟩ with needs_stackid_map_ := true }
  else if ident = "ustack" then
    some { st.writeType id ⟨Typ.ustack, 8, ""⟩ with needs_stackid_map_ := true }
  else if ident = "comm" then
    some (st.writeType id ⟨Typ.string, STRING_SIZE, ""⟩)
  else if ident = "func" then
    match st.probe_ with
    | Option.none => Option.none
    | some probe => funcAttachPoints id probe.attach_points st
  else if isArgN ident then
    let st :=
      if env.max_arg < argNum ident then
        st.addErr (Diag.archArgUnsupported env.arch_name ident)
      else st
    some (st.writeType id ⟨Typ.integer, 8, ""⟩)
  else
    some ((st.writeType id ⟨Typ.none, 0, ""⟩).addErr (Diag.unknownBuiltin ident))

/-- `SemanticAnalyser::check_assignment`. -/
def check_assignment (func : String) (hasMap hasVar : Bool)
    (want_map want_var : Bool) (st : AnalyserState) : AnalyserState × Bool :=
  if want_map ∧ want_var then
    if ¬hasMap ∧ ¬hasVar then (st.addErr (Diag.assignToMapOrVar func), false)
    else (st, true)
  else if want_map then
    if ¬hasMap then (st.addErr (Diag.assignToMap func), false) else (st, true)
  else if want_var then
    if ¬hasVar then (st.addErr (Diag.assignToVar func), false) else (st, true)
  else
    if hasMap ∨ hasVar then (st.addErr (Diag.notInAssignment func), false)
    else (st, true)

/-- `SemanticAnalyser::check_nargs`. -/
def check_nargs (func : String) (vargs : Option (List Expr))
    (expected : Nat) (st : AnalyserState) : AnalyserState × Bool :=
  let nargs := (vargs.getD []).length
  if nargs ≠ expected then
    (st.addErr (Diag.nargsMismatch func expected nargs), false)
  else (st, true)

/-- `SemanticAnalyser::check_varargs`. -/
def check_varargs (func : String) (vargs : Option (List Expr))
    (min_nargs max_nargs : Nat) (st : AnalyserState) : AnalyserState × Bool :=
  let nargs := (vargs.getD []).length
  if nargs < min_nargs then
    (st.addErr (Diag.varargsMin func min_nargs nargs), false)
  else if max_nargs < nargs then
    (st.addErr (Diag.varargsMax func max_nargs nargs), false)
  else (st, true)

/-- `SemanticAnalyser::check_arg`.  A null `vargs` returns false without a
diagnostic; an out-of-range index models `vector::at` throwing
(`Option.none`).  The literal requirement is checked on every pass, the plain
type requirement on the final pass only. -/
def check_arg (func : String) (vargs : Option (List Expr)) (ty : Typ)
    (arg_num : Nat) (want_literal : Bool) (st : AnalyserState) :
    Option (AnalyserState × Bool) :=
  match vargs with
  | Option.none => some (st, false)
  | some args =>
      match args.get? arg_num with
      | Option.none => Option.none
      | some arg =>
          let argt := st.typeOf arg.nodeId
          if want_literal ∧ (arg.is_literal = false ∨ argt.type ≠ ty) then
            some (st.addErr (Diag.argLiteralMismatch func ty argt.type), false)
          else if st.is_final_pass ∧ argt.type ≠ ty then
            some (st.addErr (Diag.argTypeMismatch func ty argt.type), false)
          else some (st, true)

/-- The dispatch on the function name in `SemanticAnalyser::visit(Call&)`,
run after all arguments were visited. -/
def visitCallBody (env : Env) (id : Nat) (func : String)
    (vargs : Option (List Expr)) (hasMap hasVar : Bool) (st : AnalyserState) :
    Option AnalyserState := do
  if func = "quantize" then
    let (st, _) := check_assignment func hasMap hasVar true false st
    let (st, _) := check_nargs func vargs 1 st
    let (st, _) ← check_arg func vargs Typ.integer 0 false st
    some (st.writeType id ⟨Typ.quantize, 8, ""⟩)
  else if func = "count" then
    let (st, _) := check_assignment func hasMap hasVar true false st
    let (st, _) := check_nargs func vargs 0 st
    some (st.writeType id ⟨Typ.count, 8, ""⟩)
  else if func = "delete" then
    let (st, _) := check_assignment func hasMap hasVar false false st
    let (st, ok) := check_nargs func vargs 1 st
    let st ←
      if ok then
        match (vargs.getD []).get? 0 with
        | Option.none => Option.none
        | some arg =>
            some (if arg.is_map then st else st.addErr Diag.deleteExpectsMap)
      else some st
    some (st.writeType id ⟨Typ.none, 0, ""⟩)
  else if func = "str" ∨ func = "sym" ∨ func = "usym" then
    let (st, _) := check_nargs func vargs 1 st
    let (st, _) ← check_arg func vargs Typ.integer 0 false st
    if func = "str" then some (st.writeType id ⟨Typ.string, STRING_SIZE, ""⟩)
    else if func = "sym" then some (st.writeType id ⟨Typ.sym, 8, ""⟩)
    else some (st.writeType id ⟨Typ.usym, 8, ""⟩)
  else if func = "reg" then
    let (st, ok) := check_nargs func vargs 1 st
    let st ←
      if ok then do
        let (st, ok2) ← check_arg func vargs Typ.string 0 true st
        if ok2 then
          match (vargs.getD []).get? 0 with
          | Option.none => Option.none
          | some arg =>
              let reg_name := arg.strVal
              if env.offset reg_name = -1 then
                some (st.addErr (Diag.invalidRegister reg_name env.arch_name))
              else some st
        else some st
      else some st
    some (st.writeType id ⟨Typ.integer, 8, ""⟩)
  else if func = "printf" then
    let (st, _) := check_assignment func hasMap hasVar false false st
    let (st, ok) := check_varargs func vargs 1 7 st
    let st ←
      if ok then do
        let (st, _) ← check_arg func vargs Typ.string 0 true st
        if st.is_final_pass then
          match (vargs.getD []).get? 0 with
          | Option.none => Option.none
          | some fmt_arg =>
              let fmt := fmt_arg.strVal
              let args := ((vargs.getD []).drop 1).map
                (fun e => st.typeOf e.nodeId)
              let msg := env.verify_format_string fmt args
              let st :=
                if msg = "" then st else st.addErr (Diag.formatStringError msg)
              some { st with printf_args_ := st.printf_args_ ++ [(fmt, args)] }
        else some st
      else some st
    some (st.writeType id ⟨Typ.none, 0, ""⟩)
  else
    some ((st.addErr (Diag.unknownFunction func)).writeType id ⟨Typ.none, 0, ""⟩)

mutual

/-- The expression dispatch of the analyser: `SemanticAnalyser::visit` on each
expression node kind, children first. -/
def visitExpr (env : Env) : Expr → AnalyserState → Option AnalyserState
  | Expr.integer id _, st => some (st.writeType id ⟨Typ.integer, 8, ""⟩)
  | Expr.str id s, st =>
      let st :=
        if STRING_SIZE - 1 < s.utf8ByteSize then
          st.addErr (Diag.stringTooLong s)
        else st
      some (st.writeType id ⟨Typ.string, STRING_SIZE, ""⟩)
  | Expr.builtin id ident, st => visitBuiltin env id ident st
  | Expr.call id func Option.none hasMap hasVar, st =>
      visitCallBody env id func Option.none hasMap hasVar st
  | Expr.call id func (some args) hasMap hasVar, st => do
      let st ← visitExprList env args st
      visitCallBody env id func (some args) hasMap hasVar st
  | Expr.map id ident Option.none, st =>
      some (visitMapBody id ident (MapKey.mk []) st)
  | Expr.map id ident (some args), st => do
      let p ← visitMapArgs env args st (MapKey.mk [])
      some (visitMapBody id ident p.2 p.1)
  | Expr.var id ident, st => some (visitVariableBody id ident st)
  | Expr.binop id l op r, st => do
      let st ← visitExpr env l st
      let st ← visitExpr env r st
      let lhs := (st.typeOf l.nodeId).type
      let rhs := (st.typeOf r.nodeId).type
      some ((binopCheck op lhs rhs st).writeType id ⟨Typ.integer, 8, ""⟩)
  | Expr.unop id op e, st => do
      let st ← visitExpr env e st
      some (unopBody id op (st.typeOf e.nodeId) st)
  | Expr.field id e fieldName, st => do
      let st ← visitExpr env e st
      some (fieldAccessBody id fieldName (st.typeOf e.nodeId) st)
  | Expr.cast id ct e, st => do
      let st ← visitExpr env e st
      some (castBody id ct st)

/-- Visiting a list of call arguments in order. -/
def visitExprList (env : Env) : List Expr → AnalyserState →
    Option AnalyserState
  | [], st => some st
  | e :: rest, st => do
      let st ← visitExpr env e st
      visitExprList env rest st

/-- Visiting a map's index arguments while accumulating the `MapKey` from
their inferred types, as in `SemanticAnalyser::visit(Map&)`. -/
def visitMapArgs (env : Env) : List Expr → AnalyserState → MapKey →
    Option (AnalyserState × MapKey)
  | [], st, key => some (st, key)
  | e :: rest, st, key => do
      let st ← visitExpr env e st
      let t := st.typeOf e.nodeId
      visitMapArgs env rest st (MapKey.mk (key.args_ ++ [(t.type, t.size)]))

end

/-- The map-value consistency logic of
`SemanticAnalyser::visit(AssignMapStatement&)`, run after the map target and
the value expression were visited, given the value expression's type. -/
def assignMapVal (map_ident : String) (et : SizedType) (st : AnalyserState) :
    AnalyserState :=
  let st :=
    match lookupA map_ident st.map_val_ with
    | some t =>
        if t.type = Typ.none then
          if st.is_final_pass then st.addErr (Diag.undefinedMap map_ident)
          else { st with map_val_ := updateA map_ident et st.map_val_ }
        else if t.type ≠ et.type then
          st.addErr (Diag.typeMismatch map_ident et.type t.type)
        else st
    | Option.none => { st with map_val_ := st.map_val_ ++ [(map_ident, et)] }
  if et.type = Typ.cast then
    let cast_type := et.cast_type
    let curr := ((lookupA map_ident st.map_val_).getD ⟨Typ.none, 0, ""⟩).cast_type
    if curr ≠ "" ∧ curr ≠ cast_type then
      st.addErr (Diag.castTypeMismatch map_ident cast_type curr)
    else
      { st with map_val_ := setCastA map_ident cast_type st.map_val_ }
  else st

/-- The variable consistency logic of
`SemanticAnalyser::visit(AssignVarStatement&)`, given the value expression's
type.  Only the first-seen branch also writes the Variable node's own type. -/
def assignVarVal (var_id : Nat) (var_ident : String) (et : SizedType)
    (st : AnalyserState) : AnalyserState :=
  let st :=
    match lookupA var_ident st.variable_val_ with
    | some t =>
        if t.type = Typ.none then
          if st.is_final_pass then st.addErr (Diag.undefinedVariable var_ident)
          else { st with variable_val_ := updateA var_ident et st.variable_val_ }
        else if t.type ≠ et.type then
          st.addErr (Diag.varTypeMismatch var_ident et.type t.type)
        else st
    | Option.none =>
        let st := { st with variable_val_ := st.variable_val_ ++ [(var_ident, et)] }
        st.writeType var_id et
  if et.type = Typ.cast then
    let cast_type := et.cast_type
    let curr :=
      ((lookupA var_ident st.variable_val_).getD ⟨Typ.none, 0, ""⟩).cast_type
    if curr ≠ "" ∧ curr ≠ cast_type then
      st.addErr (Diag.varCastTypeMismatch var_ident cast_type curr)
    else
      { st with variable_val_ := setCastA var_ident cast_type st.variable_val_ }
  else st

/-- Statement dispatch: `visit(ExprStatement&)`, `visit(AssignMapStatement&)`
(which visits its Map target node in full, key check included),
`visit(AssignVarStatement&)` (which does not visit its Variable target). -/
def visitStmt (env : Env) : Statement → AnalyserState → Option AnalyserState
  | Statement.exprStatement e, st => visitExpr env e st
  | Statement.assignMap mid mident mvargs e, st => do
      let st ← visitExpr env (Expr.map mid mident mvargs) st
      let st ← visitExpr env e st
      some (assignMapVal mident (st.typeOf e.nodeId) st)
  | Statement.assignVar vid vident e, st => do
      let st ← visitExpr env e st
      some (assignVarVal vid vident (st.typeOf e.nodeId) st)

/-- Visiting a probe's statements in order. -/
def visitStmtList (env : Env) : List Statement → AnalyserState →
    Option AnalyserState
  | [], st => some st
  | s :: rest, st => do
      let st ← visitStmt env s st
      visitStmtList env rest st

/-- `SemanticAnalyser::visit(Predicate&)` after the expression was visited. -/
def predCheck (t : SizedType) (st : AnalyserState) : AnalyserState :=
  if st.is_final_pass ∧ t.type ≠ Typ.integer then
    st.addErr (Diag.invalidPredicate t.type)
  else st

/-- `SemanticAnalyser::visit(AttachPoint&)`: provider-specific structural
validation; the BEGIN/END duplicate check runs on the final pass only. -/
def visitAttachPoint (ap : AttachPoint) (st : AnalyserState) : AnalyserState :=
  if ap.provider = "kprobe" ∨ ap.provider = "kretprobe" then
    let st := if ap.target ≠ "" then st.addErr Diag.kprobeTarget else st
    if ap.func = "" then st.addErr Diag.kprobeNoFunc else st
  else if ap.provider = "uprobe" ∨ ap.provider = "uretprobe" then
    let st := if ap.target = "" then st.addErr Diag.uprobeNoTarget else st
    if ap.func = "" then st.addErr Diag.uprobeNoFunc else st
  else if ap.provider = "tracepoint" then
    if ap.target = "" ∨ ap.func = "" then st.addErr Diag.tracepointNoTarget
    else st
  else if ap.provider = "profile" then
    let st :=
      if ap.target = "" then st.addErr Diag.profileNoUnit
      else if ap.target ≠ "hz" ∧ ap.target ≠ "us" ∧ ap.target ≠ "ms" ∧
          ap.target ≠ "s" then
        st.addErr (Diag.profileBadUnit ap.target)
      else st
    if ap.func ≠ "" then st.addErr Diag.profileFunc
    else if ap.freq ≤ 0 then st.addErr Diag.profileFreq
    else st
  else if ap.provider = "BEGIN" ∨ ap.provider = "END" then
    let st :=
      if ap.target ≠ "" ∨ ap.func ≠ "" then st.addErr Diag.beginEndTarget
      else st
    if st.is_final_pass then
      let st :=
        if ap.provider = "BEGIN" then
          let st :=
            if st.has_begin_probe_ then st.addErr Diag.multipleBEGIN else st
          { st with has_begin_probe_ := true }
        else st
      if ap.provider = "END" then
        let st :=
          if st.has_end_probe_ then st.addErr Diag.multipleEND else st
        { st with has_end_probe_ := true }
      else st
    else st
  else
    st.addErr (Diag.invalidProvider ap.provider)

/-- `SemanticAnalyser::visit(Probe&)`: clear the probe-local variable table,
record the current probe, visit attach points, predicate and statements; on
the final pass register the probe (`bpftrace_.add_probe`), modelled as a
counter. -/
def visitProbe (env : Env) (probe : Probe) (st : AnalyserState) :
    Option AnalyserState := do
  let st := { st with variable_val_ := [], probe_ := some probe }
  let st := probe.attach_points.foldl (fun st ap => visitAttachPoint ap st) st
  let st ←
    match probe.pred with
    | Option.none => some st
    | some p => do
        let st ← visitExpr env p st
        some (predCheck (st.typeOf p.nodeId) st)
  let st ← visitStmtList env probe.stmts st
  if st.is_final_pass then some { st with added_probes_ := st.added_probes_ + 1 }
  else some st

/-- Visiting the program's probes in declaration order. -/
def visitProbeList (env : Env) : List Probe → AnalyserState →
    Option AnalyserState
  | [], st => some st
  | p :: rest, st => do
      let st ← visitProbe env p st
      visitProbeList env rest st

/-- `SemanticAnalyser::visit(Program&)`: includes (whose visit is a no-op)
then all probes. -/
def visitProgram (env : Env) (program : Program) (st : AnalyserState) :
    Option AnalyserState :=
  visitProbeList env program.probes st

/-- One iteration of the driver loop of `SemanticAnalyser::analyse`: set
`pass_` and run the full tree walk. -/
def runPass (env : Env) (prog : Program) (p : Nat) (st : AnalyserState) :
    Option AnalyserState :=
  visitProgram env prog { st with pass_ := p }

/-- The driver loop of `SemanticAnalyser::analyse`: after each walk, if the
accumulated `err_` stream is non-empty, write it to `out_` and return the
current 1-based pass number; after all passes, return 0. -/
def analyseGo (env : Env) (prog : Program) :
    Nat → Nat → AnalyserState → Option (AnalyserState × Nat)
  | 0, _, st => some (st, 0)
  | Nat.succ k, p, st => do
      let st ← runPass env prog p st
      if st.err_ ≠ [] then some ({ st with out_ := st.out_ ++ st.err_ }, p)
      else analyseGo env prog k (p + 1) st

/-- A freshly-constructed analyser state: empty symbol tables, the
struct/union registry contents, and the configured number of passes. -/
def initState (structs : List (String × StructInfo)) (num_passes : Nat) :
    AnalyserState :=
  { structs_ := structs, num_passes_ := num_passes }

/-- `SemanticAnalyser::analyse`: run up to `num_passes` tree walks from pass 1
on a fresh state. -/
def analyse (env : Env) (prog : Program)
    (structs : List (String × StructInfo)) (num_passes : Nat) :
    Option (AnalyserState × Nat) :=
  analyseGo env prog num_passes 1 (initState structs num_passes)

/-- Modelled from the spec: the driver loop written from the spec's words,
for comparison with `analyseGo`.  "On each iteration: run the full tree walk
once; if the accumulated diagnostics for that iteration are non-empty, stop
immediately and report failure at that pass number" — so here the check is on
the current walk's own diagnostics (the suffix of `err_` added by this walk),
not on the whole stream. -/
def driverSpecGo (env : Env) (prog : Program) :
    Nat → Nat → AnalyserState → Option (AnalyserState × Nat)
  | 0, _, st => some (st, 0)
  | Nat.succ k, p, st => do
      let st2 ← runPass env prog p st
      let walkDiags := st2.err_.drop st.err_.length
      if walkDiags ≠ [] then some ({ st2 with out_ := st2.out_ ++ st2.err_ }, p)
      else driverSpecGo env prog k (p + 1) st2

/-- Modelled from the spec: the whole driver written from the spec's words,
starting from a fresh state at pass 1. -/
def driverSpec (env : Env) (prog : Program)
    (structs : List (String × StructInfo)) (num_passes : Nat) :
    Option (AnalyserState × Nat) :=
  driverSpecGo env prog num_passes 1 (initState structs num_passes)

/-- A concrete instantiation of the external collaborators, used by the
concrete test programs in the theorems below: x86_64-like architecture
metadata and a format verifier that accepts everything. -/
def envD : Env :=
  { max_arg := 6
    arch_name := "x86_64"
    offset := fun r => if r = "ip" then 128 else -1
    verify_format_string := fun _ _ => "" }

/-- Test program for C1, variable case: `kprobe:f { $x; $x = 1 }` — the
variable is read earlier in the probe than it is assigned. -/
def c1VarProg : Program :=
  { probes := [ { attach_points := [⟨"kprobe", "", "f", 0⟩]
                  stmts := [ Statement.exprStatement (Expr.var 1 "x"),
                             Statement.assignVar 2 "x" (Expr.integer 3 1) ] } ] }

/-- Test program family for C1, map case: `kprobe:f { @m; @m = n }` — the map
`m` is read earlier in the probe than it is assigned. -/
def c1MapProg (m : String) (n : Int) : Program :=
  { probes := [ { attach_points := [⟨"kprobe", "", "f", 0⟩]
                  stmts := [ Statement.exprStatement (Expr.map 1 m Option.none),
                             Statement.assignMap 2 m Option.none
                               (Expr.integer 3 n) ] } ] }

/-- Test program for C2: `kprobe:f { @a[@b] = 1; @b = 1 }` — on pass 1 the
key of `@a` is registered with a `none`-typed placeholder entry (the type of
the not-yet-defined `@b`), and on pass 2 the access key is `(integer, 8)`. -/
def c2Prog : Program :=
  { probes := [ { attach_points := [⟨"kprobe", "", "f", 0⟩]
                  stmts := [ Statement.assignMap 1 "a"
                               (some [Expr.map 2 "b" Option.none])
                               (Expr.integer 3 1),
                             Statement.assignMap 4 "b" Option.none
                               (Expr.integer 5 1) ] } ] }

/-- Test program for C3: `BEGIN { func }`. -/
def c3BeginProg : Program :=
  { probes := [ { attach_points := [⟨"BEGIN", "", "", 0⟩]
                  stmts := [ Statement.exprStatement (Expr.builtin 1 "func") ] } ] }

/-- The attach point `BEGIN` with empty target and function. -/
def beginAp : AttachPoint := ⟨"BEGIN", "", "", 0⟩

/-- A probe consisting of a single bare `BEGIN` attach point. -/
def beginProbe : Probe := { attach_points := [beginAp] }

/-- Test program for C9: two `BEGIN` probes and nothing else. -/
def beginProg : Program := { probes := [beginProbe, beginProbe] }

/-! Helper lemmas shared by the claim theorems. -/

/-- Looking up a key right after updating it yields the written value. -/
theorem lookupA_updateA_self {κ α : Type} [DecidableEq κ] (k : κ) (v : α) :
    ∀ l : List (κ × α), lookupA k (updateA k v l) = some v := by
  intro l
  induction l with
  | nil => simp [updateA, lookupA]
  | cons p rest ih =>
      obtain ⟨k2, v2⟩ := p
      by_cases h : k = k2
      · simp [updateA, lookupA, h]
      · simp [updateA, lookupA, h, ih]

/-- As long as the error stream is empty at the start of an iteration, the
driver loop of the code (which checks the whole accumulated stream) and the
driver loop written from the spec (which checks the diagnostics of the current
walk only) agree. -/
theorem analyseGo_eq_driverSpecGo (env : Env) (prog : Program) :
    ∀ (k p : Nat) (st : AnalyserState), st.err_ = [] →
    analyseGo env prog k p st = driverSpecGo env prog k p st := by
  intro k
  induction k with
  | zero => intro p st _; rfl
  | succ k ih =>
      intro p st herr
      rw [analyseGo, driverSpecGo]
      cases h : runPass env prog p st with
      | none => rfl
      | some st2 =>
          simp only [Option.bind_eq_bind, Option.some_bind, herr,
            List.length_nil, List.drop_zero]
          by_cases h2 : st2.err_ = []
          · rw [if_neg (by simp [h2]), if_neg (by simp [h2]), ih (p + 1) st2 h2]
          · rw [if_pos (by simp [h2]), if_pos (by simp [h2])]

/-- The pass number returned by the driver loop is 0 or lies below the pass
counter plus the number of remaining iterations. -/
theorem analyseGo_result_bound (env : Env) (prog : Program) :
    ∀ (k p : Nat) (st st2 : AnalyserState) (r : Nat),
    analyseGo env prog k p st = some (st2, r) → r = 0 ∨ r < p + k := by
  intro k
  induction k with
  | zero =>
      intro p st st2 r h
      rw [analyseGo] at h
      simp only [Option.some.injEq, Prod.mk.injEq] at h
      omega
  | succ k ih =>
      intro p st st2 r h
      rw [analyseGo] at h
      cases h3 : runPass env prog p st with
      | none => rw [h3] at h; simp at h
      | some st3 =>
          rw [h3] at h
          simp only [Option.bind_eq_bind, Option.some_bind] at h
          by_cases h4 : st3.err_ = []
          · rw [if_neg (by simp [h4])] at h
            rcases ih (p + 1) st3 st2 r h with h5 | h5
            · exact Or.inl h5
            · exact Or.inr (by omega)
          · rw [if_pos (by simp [h4])] at h
            simp only [Option.some.injEq, Prod.mk.injEq] at h
            omega

/-- A non-final walk over the two-BEGIN program changes nothing but the pass
counter, the cleared variable table and the current-probe pointer. -/
theorem runPass_beginProg_nonfinal (p : Nat) (st : AnalyserState)
    (h : p ≠ st.num_passes_) :
    runPass envD beginProg p st =
    some { st with pass_ := p, variable_val_ := [],
                   probe_ := some beginProbe } := by
  simp [runPass, visitProgram, visitProbeList, visitProbe, visitAttachPoint,
    visitStmtList, AnalyserState.is_final_pass, beginProg, beginProbe,
    beginAp, h]

/-- The final walk over the two-BEGIN program emits exactly one
"More than one BEGIN probe defined" diagnostic, at the second probe. -/
theorem runPass_beginProg_final (p : Nat) (st : AnalyserState)
    (h : p = st.num_passes_) (hb : st.has_begin_probe_ = false) :
    runPass envD beginProg p st =
    some { st with pass_ := p, variable_val_ := [], probe_ := some beginProbe,
                   has_begin_probe_ := true,
                   err_ := st.err_ ++ [Diag.multipleBEGIN],
                   added_probes_ := st.added_probes_ + 2 } := by
  simp [runPass, visitProgram, visitProbeList, visitProbe, visitAttachPoint,
    visitStmtList, AnalyserState.is_final_pass, AnalyserState.addErr,
    beginProg, beginProbe, beginAp, h, hb]

/-- Driving the two-BEGIN program from any pass up to the final one: every
earlier walk is clean and the final walk fails with the duplicate-BEGIN
diagnostic. -/
theorem analyseGo_beginProg : ∀ (k p : Nat) (st : AnalyserState),
    st.num_passes_ = p + k → st.err_ = [] → st.has_begin_probe_ = false →
    st.out_ = [] →
    analyseGo envD beginProg (k + 1) p st =
    some ({ st with pass_ := st.num_passes_, variable_val_ := [],
                    probe_ := some beginProbe, has_begin_probe_ := true,
                    err_ := [Diag.multipleBEGIN], out_ := [Diag.multipleBEGIN],
                    added_probes_ := st.added_probes_ + 2 },
          st.num_passes_) := by
  intro k
  induction k with
  | zero =>
      intro p st hnum herr hb hout
      have hfin : p = st.num_passes_ := by omega
      rw [show (0 + 1 : Nat) = Nat.succ 0 from rfl, analyseGo,
        runPass_beginProg_final p st hfin hb]
      simp [herr, hout, hfin]
  | succ k ih =>
      intro p st hnum herr hb hout
      have hne : p ≠ st.num_passes_ := by omega
      rw [show k + 1 + 1 = Nat.succ (k + 1) from rfl, analyseGo,
        runPass_beginProg_nonfinal p st hne]
      simp only [Option.bind_eq_bind, Option.some_bind]
      rw [if_neg (by simp [herr])]
      have := ih (p + 1)
        { st with pass_ := p, variable_val_ := [], probe_ := some beginProbe }
        (by simpa using by omega) (by simpa using herr) (by simpa using hb)
        (by simpa using hout)
      rw [this]

/-! The claims. -/

/-- C1, counterexample: in `kprobe:f { $x; $x = 1 }` the variable `x` is read
earlier in the probe than it is assigned, the only "unknown" is that one
read, and yet `analyse` with `numPasses = 2` returns 1 (failure at pass 1)
with an "Undefined variable" diagnostic — the Variable rule errors on every
pass, so the claimed forward-reference convergence fails for variables. -/
theorem c1_counterexample :
    (analyse envD c1VarProg [] 2).map (fun r => (r.2, r.1.err_)) =
    some (1, [Diag.undefinedVariable "x"]) := by decide

/-- C1, amended: for every program in which a map (not a variable) is read
earlier in a probe than it is assigned, needing only one unknown round-trip
and otherwise error-free — here the family `kprobe:f { @m; @m = n }` for any
map name and integer — running the analyser with `numPasses = 2` produces no
diagnostics, `analyse` returns 0, and the read resolves to the assigned type
`integer(8)` by the final pass. -/
theorem c1_amended_map_forward_reference (m : String) (n : Int) :
    (analyse envD (c1MapProg m n) [] 2).map
      (fun r => (r.2, r.1.err_, r.1.typeOf 1)) =
    some (0, [], ⟨Typ.integer, 8, ""⟩) := by
  simp [analyse, analyseGo, initState, runPass, visitProgram, visitProbeList,
    visitProbe, visitAttachPoint, visitStmtList, visitStmt, visitExpr,
    visitMapBody, mapKeyCheck, mapValAdopt, assignMapVal,
    AnalyserState.is_final_pass, AnalyserState.addErr, AnalyserState.writeType,
    AnalyserState.typeOf, lookupA, updateA, c1MapProg, envD, Expr.nodeId]

/-- C2, counterexample: in `kprobe:f { @a[@b] = 1; @b = 1 }` with
`numPasses = 3`, pass 1 registers the key signature of `@a` as the
`none`-typed placeholder `[(none, 0)]` (the type of the not-yet-defined
`@b`); on pass 2, a not-yet-final pass, the access key is `[(integer, 8)]`
and the analyser reports an "Argument mismatch" instead of filling the
placeholder in, so `analyse` returns 2 — refuting the claimed
placeholder-fill-in exception. -/
theorem c2_counterexample :
    (analyse envD c2Prog [] 3).map (fun r => (r.2, r.1.err_)) =
    some (2, [Diag.argumentMismatch "a" ⟨[(Typ.integer, 8)]⟩
      ⟨[(Typ.none, 0)]⟩]) := by decide

/-- C2, amended: the first Map access registers its key signature; every
later access with a different signature appends an "Argument mismatch"
diagnostic listing both signatures (on every pass — there is no
placeholder-fill-in exception on non-final passes), and an access with the
registered signature changes nothing. -/
theorem c2_amended_key_signature_stability (ident : String) (key : MapKey)
    (st : AnalyserState) :
    (lookupA ident st.map_key_ = Option.none →
      mapKeyCheck ident key st =
        { st with map_key_ := st.map_key_ ++ [(ident, key)] }) ∧
    (∀ k, lookupA ident st.map_key_ = some k → k ≠ key →
      mapKeyCheck ident key st =
        st.addErr (Diag.argumentMismatch ident key k)) ∧
    (∀ k, lookupA ident st.map_key_ = some k → k = key →
      mapKeyCheck ident key st = st) := by
  refine ⟨fun h => by simp [mapKeyCheck, h],
    fun k h hne => by simp [mapKeyCheck, h, hne],
    fun k h he => by simp [mapKeyCheck, h, he]⟩

/-- C2, witness: the three cases of the key-signature rule at concrete
inputs; in particular a registered `none`-typed placeholder signature is not
filled in but reported as a mismatch. -/
theorem c2_amended_key_signature_stability_witness :
    mapKeyCheck "m" ⟨[(Typ.integer, 8)]⟩
        { map_key_ := [("m", ⟨[(Typ.none, 0)]⟩)] } =
      AnalyserState.addErr { map_key_ := [("m", ⟨[(Typ.none, 0)]⟩)] }
        (Diag.argumentMismatch "m" ⟨[(Typ.integer, 8)]⟩ ⟨[(Typ.none, 0)]⟩) ∧
    mapKeyCheck "m" ⟨[(Typ.integer, 8)]⟩ {} =
      { map_key_ := [("m", ⟨[(Typ.integer, 8)]⟩)] } ∧
    mapKeyCheck "m" ⟨[(Typ.integer, 8)]⟩
        { map_key_ := [("m", ⟨[(Typ.integer, 8)]⟩)] } =
      { map_key_ := [("m", ⟨[(Typ.integer, 8)]⟩)] } :=
  ⟨(c2_amended_key_signature_stability "m" ⟨[(Typ.integer, 8)]⟩ _).2.1
      ⟨[(Typ.none, 0)]⟩ (by decide) (by decide),
   (c2_amended_key_signature_stability "m" ⟨[(Typ.integer, 8)]⟩ _).1
      (by decide),
   (c2_amended_key_signature_stability "m" ⟨[(Typ.integer, 8)]⟩ _).2.2
      ⟨[(Typ.integer, 8)]⟩ (by decide) (by decide)⟩

/-- C3, counterexample: the whole program `BEGIN { func }` analyses cleanly —
`analyse` returns 0 with no diagnostics and `func` gets type `usym(8)` —
because `probetype` maps the provider "BEGIN" to `ProbeType::uprobe`; the
claim says BEGIN should yield a func-incompatible diagnostic. -/
theorem c3_counterexample :
    (analyse envD c3BeginProg [] 2).map
      (fun r => (r.2, r.1.err_, r.1.typeOf 1)) =
    some (0, [], ⟨Typ.usym, 8, ""⟩) := by decide

/-- C3, amended: for the func builtin with a single attach point in the
enclosing probe: providers kprobe, kretprobe and tracepoint yield `sym(8)`;
providers uprobe, uretprobe, BEGIN and END yield `usym(8)` (BEGIN and END map
to `ProbeType::uprobe` in `probetype`); profile appends a diagnostic that
func is incompatible with that provider; and every provider unknown to
`probetype` aborts the process (`Option.none`). -/
theorem c3_amended_func_provider_dispatch (env : Env) (st : AnalyserState)
    (id : Nat) (ap : AttachPoint) (pr : Probe) (hp : st.probe_ = some pr)
    (hap : pr.attach_points = [ap]) :
    (ap.provider = "kprobe" ∨ ap.provider = "kretprobe" ∨
        ap.provider = "tracepoint" →
      visitBuiltin env id "func" st =
        some (st.writeType id ⟨Typ.sym, 8, ""⟩)) ∧
    (ap.provider = "uprobe" ∨ ap.provider = "uretprobe" ∨
        ap.provider = "BEGIN" ∨ ap.provider = "END" →
      visitBuiltin env id "func" st =
        some (st.writeType id ⟨Typ.usym, 8, ""⟩)) ∧
    (ap.provider = "profile" →
      visitBuiltin env id "func" st =
        some (st.addErr (Diag.funcIncompatible ap.provider))) ∧
    (probetype ap.provider = Option.none →
      visitBuiltin env id "func" st = Option.none) := by
  refine ⟨fun hprov => ?_, fun hprov => ?_, fun hprov => ?_, fun hprov => ?_⟩
  · rcases hprov with h | h | h <;>
      simp [visitBuiltin, hp, hap, funcAttachPoints, probetype, h]
  · rcases hprov with h | h | h | h <;>
      simp [visitBuiltin, hp, hap, funcAttachPoints, probetype, h]
  · simp [visitBuiltin, hp, hap, funcAttachPoints, probetype, hprov]
  · simp [visitBuiltin, hp, hap, funcAttachPoints, hprov]

/-- C3, witness: the four provider families at concrete states — kprobe gives
`sym(8)`, BEGIN gives `usym(8)` with no diagnostic, profile appends the
incompatibility diagnostic, and the unknown provider "foo" aborts. -/
theorem c3_amended_func_provider_dispatch_witness :
    visitBuiltin envD 1 "func"
        { probe_ := some { attach_points := [⟨"kprobe", "", "f", 0⟩] } } =
      some (AnalyserState.writeType
        { probe_ := some { attach_points := [⟨"kprobe", "", "f", 0⟩] } } 1
        ⟨Typ.sym, 8, ""⟩) ∧
    visitBuiltin envD 1 "func"
        { probe_ := some { attach_points := [⟨"BEGIN", "", "", 0⟩] } } =
      some (AnalyserState.writeType
        { probe_ := some { attach_points := [⟨"BEGIN", "", "", 0⟩] } } 1
        ⟨Typ.usym, 8, ""⟩) ∧
    visitBuiltin envD 1 "func"
        { probe_ := some { attach_points := [⟨"profile", "hz", "", 99⟩] } } =
      some (AnalyserState.addErr
        { probe_ := some { attach_points := [⟨"profile", "hz", "", 99⟩] } }
        (Diag.funcIncompatible "profile")) ∧
    visitBuiltin envD 1 "func"
        { probe_ := some { attach_points := [⟨"foo", "", "", 0⟩] } } =
      Option.none :=
  ⟨(c3_amended_func_provider_dispatch envD _ 1 ⟨"kprobe", "", "f", 0⟩ _
      rfl rfl).1 (Or.inl rfl),
   (c3_amended_func_provider_dispatch envD _ 1 ⟨"BEGIN", "", "", 0⟩ _
      rfl rfl).2.1 (Or.inr (Or.inr (Or.inl rfl))),
   (c3_amended_func_provider_dispatch envD _ 1 ⟨"profile", "hz", "", 99⟩ _
      rfl rfl).2.2.1 rfl,
   (c3_amended_func_provider_dispatch envD _ 1 ⟨"foo", "", "", 0⟩ _
      rfl rfl).2.2.2 (by decide)⟩

/-- C4: the pass driver runs at most `numPasses` full tree walks; after each
walk it checks that walk's diagnostics, stopping immediately with the
accumulated text and that walk's 1-based pass number when they are non-empty,
and returns 0 when all walks complete clean — stated as: `analyse` equals the
driver written from the spec's words (which checks each walk's own
diagnostics), and every returned pass number is at most `numPasses`. -/
theorem c4_driver_loop :
    (∀ (env : Env) (prog : Program) (structs : List (String × StructInfo))
        (num_passes : Nat),
      analyse env prog structs num_passes =
        driverSpec env prog structs num_passes) ∧
    (∀ (env : Env) (prog : Program) (structs : List (String × StructInfo))
        (num_passes : Nat) (st2 : AnalyserState) (r : Nat),
      analyse env prog structs num_passes = some (st2, r) →
      r ≤ num_passes) := by
  constructor
  · intro env prog structs N
    exact analyseGo_eq_driverSpecGo env prog N 1 _ rfl
  · intro env prog structs N st2 r h
    rcases analyseGo_result_bound env prog N 1 _ st2 r h with h0 | h0 <;> omega

/-- C4, witness: the two parts at the empty program with two passes. -/
theorem c4_driver_loop_witness :
    analyse envD (Program.mk [] []) [] 2 =
      driverSpec envD (Program.mk [] []) [] 2 ∧ (0 : Nat) ≤ 2 :=
  ⟨c4_driver_loop.1 envD (Program.mk [] []) [] 2,
   c4_driver_loop.2 envD (Program.mk [] []) [] 2
     { initState [] 2 with pass_ := 2 } 0 rfl⟩

/-- C5: for a map (first three parts) and for a variable (last three parts):
once the recorded value type has a non-none kind, an assignment of a
different kind appends a "Type mismatch" diagnostic and leaves the recorded
entry unchanged; a none-kind placeholder is overwritten with the assigned
type on a non-final pass without error; and for cast-kind values a non-empty
recorded struct name differing from the assigned one appends a diagnostic. -/
theorem c5_value_type_monotonicity (m : String) (vid : Nat)
    (et t : SizedType) (st : AnalyserState) :
    (lookupA m st.map_val_ = some t → t.type ≠ Typ.none → t.type ≠ et.type →
      et.type ≠ Typ.cast →
      assignMapVal m et st = st.addErr (Diag.typeMismatch m et.type t.type)) ∧
    (lookupA m st.map_val_ = some t → t.type = Typ.none →
      st.is_final_pass = false → et.type ≠ Typ.cast →
      assignMapVal m et st = { st with map_val_ := updateA m et st.map_val_ }) ∧
    (lookupA m st.map_val_ = some t → t.type = Typ.cast → et.type = Typ.cast →
      t.cast_type ≠ "" → t.cast_type ≠ et.cast_type →
      assignMapVal m et st =
        st.addErr (Diag.castTypeMismatch m et.cast_type t.cast_type)) ∧
    (lookupA m st.variable_val_ = some t → t.type ≠ Typ.none →
      t.type ≠ et.type → et.type ≠ Typ.cast →
      assignVarVal vid m et st =
        st.addErr (Diag.varTypeMismatch m et.type t.type)) ∧
    (lookupA m st.variable_val_ = some t → t.type = Typ.none →
      st.is_final_pass = false → et.type ≠ Typ.cast →
      assignVarVal vid m et st =
        { st with variable_val_ := updateA m et st.variable_val_ }) ∧
    (lookupA m st.variable_val_ = some t → t.type = Typ.cast →
      et.type = Typ.cast → t.cast_type ≠ "" → t.cast_type ≠ et.cast_type →
      assignVarVal vid m et st =
        st.addErr (Diag.varCastTypeMismatch m et.cast_type t.cast_type)) := by
  refine ⟨fun h h1 h2 h3 => ?_, fun h h1 h2 h3 => ?_,
    fun h h1 h2 h3 h4 => ?_, fun h h1 h2 h3 => ?_,
    fun h h1 h2 h3 => ?_, fun h h1 h2 h3 h4 => ?_⟩
  · simp [assignMapVal, h, h1, h2, h3, Ne.symm h2]
  · simp [assignMapVal, h, h1, h2, h3]
  · simp [assignMapVal, h, h1, h2, h3, h4, AnalyserState.addErr]
  · simp [assignVarVal, h, h1, h2, h3, Ne.symm h2]
  · simp [assignVarVal, h, h1, h2, h3]
  · simp [assignVarVal, h, h1, h2, h3, h4, AnalyserState.addErr]

/-- C5, witness: the six cases at concrete inputs — a string assigned over a
recorded integer map/variable value errors, a none placeholder is filled in
on a non-final pass, and a cast struct-name change errors. -/
theorem c5_value_type_monotonicity_witness :
    assignMapVal "m" ⟨Typ.string, 64, ""⟩
        { map_val_ := [("m", ⟨Typ.integer, 8, ""⟩)] } =
      AnalyserState.addErr { map_val_ := [("m", ⟨Typ.integer, 8, ""⟩)] }
        (Diag.typeMismatch "m" Typ.string Typ.integer) ∧
    assignMapVal "m" ⟨Typ.integer, 8, ""⟩
        { map_val_ := [("m", ⟨Typ.none, 0, ""⟩)] } =
      { map_val_ := [("m", ⟨Typ.integer, 8, ""⟩)] } ∧
    assignMapVal "m" ⟨Typ.cast, 8, "Bar"⟩
        { map_val_ := [("m", ⟨Typ.cast, 8, "Foo"⟩)] } =
      AnalyserState.addErr { map_val_ := [("m", ⟨Typ.cast, 8, "Foo"⟩)] }
        (Diag.castTypeMismatch "m" "Bar" "Foo") ∧
    assignVarVal 9 "x" ⟨Typ.string, 64, ""⟩
        { variable_val_ := [("x", ⟨Typ.integer, 8, ""⟩)] } =
      AnalyserState.addErr { variable_val_ := [("x", ⟨Typ.integer, 8, ""⟩)] }
        (Diag.varTypeMismatch "x" Typ.string Typ.integer) ∧
    assignVarVal 9 "x" ⟨Typ.integer, 8, ""⟩
        { variable_val_ := [("x", ⟨Typ.none, 0, ""⟩)] } =
      { variable_val_ := [("x", ⟨Typ.integer, 8, ""⟩)] } ∧
    assignVarVal 9 "x" ⟨Typ.cast, 8, "Bar"⟩
        { variable_val_ := [("x", ⟨Typ.cast, 8, "Foo"⟩)] } =
      AnalyserState.addErr { variable_val_ := [("x", ⟨Typ.cast, 8, "Foo"⟩)] }
        (Diag.varCastTypeMismatch "x" "Bar" "Foo") :=
  ⟨(c5_value_type_monotonicity "m" 0 ⟨Typ.string, 64, ""⟩ ⟨Typ.integer, 8, ""⟩
      _).1 (by decide) (by decide) (by decide) (by decide),
   (c5_value_type_monotonicity "m" 0 ⟨Typ.integer, 8, ""⟩ ⟨Typ.none, 0, ""⟩
      _).2.1 (by decide) (by decide) (by decide) (by decide),
   (c5_value_type_monotonicity "m" 0 ⟨Typ.cast, 8, "Bar"⟩ ⟨Typ.cast, 8, "Foo"⟩
      _).2.2.1 (by decide) (by decide) (by decide) (by decide) (by decide),
   (c5_value_type_monotonicity "x" 9 ⟨Typ.string, 64, ""⟩ ⟨Typ.integer, 8, ""⟩
      _).2.2.2.1 (by decide) (by decide) (by decide) (by decide),
   (c5_value_type_monotonicity "x" 9 ⟨Typ.integer, 8, ""⟩ ⟨Typ.none, 0, ""⟩
      _).2.2.2.2.1 (by decide) (by decide) (by decide) (by decide),
   (c5_value_type_monotonicity "x" 9 ⟨Typ.cast, 8, "Bar"⟩ ⟨Typ.cast, 8, "Foo"⟩
      _).2.2.2.2.2 (by decide) (by decide) (by decide) (by decide) (by decide)⟩

/-- C6, counterexample: dereferencing a variable of non-pointer cast type
reports the diagnostic but does not populate the Unop node's type field (the
side-table entry stays absent), refuting the claim that the Unop
dereference-of-non-pointer error branch still populates the node's type. -/
theorem c6_counterexample :
    (visitExpr envD (Expr.unop 1 Op.MUL (Expr.var 2 "x"))
        { variable_val_ := [("x", ⟨Typ.cast, 8, "Foo"⟩)] }).map
      (fun st => (st.err_, lookupA 1 st.node_types)) =
    some ([Diag.derefNonPointer "Foo"], Option.none) := by decide

/-- C6, amended: the Unop dereference-of-non-pointer branch and the three
FieldAccess error branches (non-cast base, pointer base, no such field)
report their diagnostic but leave the node's type slot unwritten; by
contrast the Variable rule populates a type on every input. -/
theorem c6_amended_error_branch_types :
    (∀ (id : Nat) (et : SizedType) (st : AnalyserState),
      et.type = Typ.cast → et.cast_type.back ≠ '*' →
      unopBody id Op.MUL et st =
        st.addErr (Diag.derefNonPointer et.cast_type)) ∧
    (∀ (id : Nat) (f : String) (bt : SizedType) (st : AnalyserState),
      bt.type ≠ Typ.cast →
      (fieldAccessBody id f bt st).node_types = st.node_types) ∧
    (∀ (id : Nat) (f : String) (bt : SizedType) (st : AnalyserState),
      bt.type = Typ.cast → bt.cast_type.back = '*' →
      fieldAccessBody id f bt st =
        st.addErr (Diag.fieldAccessPointer f bt.cast_type)) ∧
    (∀ (id : Nat) (f : String) (bt : SizedType) (st : AnalyserState),
      bt.type = Typ.cast → bt.cast_type.back ≠ '*' →
      lookupA f (structsGet bt.cast_type st.structs_).1.fields = Option.none →
      (fieldAccessBody id f bt st).node_types = st.node_types ∧
      (fieldAccessBody id f bt st).err_ =
        st.err_ ++ [Diag.noSuchField bt.cast_type f]) ∧
    (∀ (id : Nat) (ident : String) (st : AnalyserState),
      ∃ t, lookupA id (visitVariableBody id ident st).node_types = some t) := by
  refine ⟨?_, ?_, ?_, ?_, ?_⟩
  · intro id et st h1 h2
    simp [unopBody, h1, h2]
  · intro id f bt st h1
    simp only [fieldAccessBody, if_pos h1]
    split <;> rfl
  · intro id f bt st h1 h2
    simp [fieldAccessBody, h1, h2]
  · intro id f bt st h1 h2 h3
    simp [fieldAccessBody, h1, h2, h3, AnalyserState.addErr]
  · intro id ident st
    rw [visitVariableBody]
    cases h : lookupA ident st.variable_val_ with
    | none => exact ⟨_, lookupA_updateA_self id _ _⟩
    | some t => exact ⟨t, lookupA_updateA_self id _ _⟩

/-- C6, witness: the five parts at concrete inputs. -/
theorem c6_amended_error_branch_types_witness :
    unopBody 1 Op.MUL ⟨Typ.cast, 8, "Foo"⟩ {} =
      AnalyserState.addErr {} (Diag.derefNonPointer "Foo") ∧
    (fieldAccessBody 1 "f" ⟨Typ.integer, 8, ""⟩ {}).node_types = [] ∧
    fieldAccessBody 1 "f" ⟨Typ.cast, 8, "Foo*"⟩ {} =
      AnalyserState.addErr {} (Diag.fieldAccessPointer "f" "Foo*") ∧
    ((fieldAccessBody 1 "f" ⟨Typ.cast, 8, "Foo"⟩ {}).node_types = [] ∧
      (fieldAccessBody 1 "f" ⟨Typ.cast, 8, "Foo"⟩ {}).err_ =
        [] ++ [Diag.noSuchField "Foo" "f"]) ∧
    (∃ t, lookupA 1 (visitVariableBody 1 "x" {}).node_types = some t) :=
  ⟨c6_amended_error_branch_types.1 1 ⟨Typ.cast, 8, "Foo"⟩ {} (by decide)
      (by decide),
   c6_amended_error_branch_types.2.1 1 "f" ⟨Typ.integer, 8, ""⟩ {} (by decide),
   c6_amended_error_branch_types.2.2.1 1 "f" ⟨Typ.cast, 8, "Foo*"⟩ {}
      (by decide) (by decide),
   c6_amended_error_branch_types.2.2.2.1 1 "f" ⟨Typ.cast, 8, "Foo"⟩ {}
      (by decide) (by decide) (by decide),
   c6_amended_error_branch_types.2.2.2.2 1 "x" {}⟩

/-- C7: visiting any Binop node that completes assigns it type `integer(8)`,
on every pass, for all operand kinds; the operand-kind checks run on the
final pass only — on a non-final pass `binopCheck` changes nothing, on the
final pass differing kinds append a type-mismatch diagnostic, and equal
non-integer kinds with an operator other than EQ or NE append an
invalid-operand diagnostic. -/
theorem c7_binop_rule :
    (∀ (env : Env) (st st2 : AnalyserState) (id : Nat) (l r : Expr) (op : Op),
      visitExpr env (Expr.binop id l op r) st = some st2 →
      lookupA id st2.node_types = some ⟨Typ.integer, 8, ""⟩) ∧
    (∀ (op : Op) (lhs rhs : Typ) (st : AnalyserState),
      st.is_final_pass = false → binopCheck op lhs rhs st = st) ∧
    (∀ (op : Op) (lhs rhs : Typ) (st : AnalyserState),
      st.is_final_pass = true → lhs ≠ rhs →
      binopCheck op lhs rhs st =
        st.addErr (Diag.binopTypeMismatch op lhs rhs)) ∧
    (∀ (op : Op) (lhs : Typ) (st : AnalyserState),
      st.is_final_pass = true → lhs ≠ Typ.integer → op ≠ Op.EQ →
      op ≠ Op.NE →
      binopCheck op lhs lhs st = st.addErr (Diag.binopInvalidType op lhs)) := by
  refine ⟨?_, ?_, ?_, ?_⟩
  · intro env st st2 id l r op h
    rw [visitExpr] at h
    cases h1 : visitExpr env l st with
    | none => rw [h1] at h; simp at h
    | some sta =>
        rw [h1] at h
        simp only [Option.bind_eq_bind, Option.some_bind] at h
        cases h2 : visitExpr env r sta with
        | none => rw [h2] at h; simp at h
        | some stb =>
            rw [h2] at h
            simp only [Option.some_bind, Option.some.injEq] at h
            rw [← h]
            exact lookupA_updateA_self id _ _
  · intro op lhs rhs st h; simp [binopCheck, h]
  · intro op lhs rhs st h h1; simp [binopCheck, h, h1]
  · intro op lhs st h h1 h2 h3; simp [binopCheck, h, h1, h2, h3]

/-- C7, witness: the four parts at concrete inputs — a completed Binop visit
carries `integer(8)`, a non-final pass emits nothing even for mismatched
string/integer operands, the final pass emits the two diagnostics. -/
theorem c7_binop_rule_witness :
    lookupA 1 (AnalyserState.node_types
      { node_types := [(2, ⟨Typ.integer, 8, ""⟩), (3, ⟨Typ.integer, 8, ""⟩),
                       (1, ⟨Typ.integer, 8, ""⟩)] }) =
      some ⟨Typ.integer, 8, ""⟩ ∧
    binopCheck Op.PLUS Typ.string Typ.integer { pass_ := 1, num_passes_ := 2 } =
      { pass_ := 1, num_passes_ := 2 } ∧
    binopCheck Op.PLUS Typ.string Typ.integer { pass_ := 2, num_passes_ := 2 } =
      AnalyserState.addErr { pass_ := 2, num_passes_ := 2 }
        (Diag.binopTypeMismatch Op.PLUS Typ.string Typ.integer) ∧
    binopCheck Op.PLUS Typ.string Typ.string { pass_ := 2, num_passes_ := 2 } =
      AnalyserState.addErr { pass_ := 2, num_passes_ := 2 }
        (Diag.binopInvalidType Op.PLUS Typ.string) :=
  ⟨c7_binop_rule.1 envD {}
      { node_types := [(2, ⟨Typ.integer, 8, ""⟩), (3, ⟨Typ.integer, 8, ""⟩),
                       (1, ⟨Typ.integer, 8, ""⟩)] }
      1 (Expr.integer 2 0) (Expr.integer 3 0) Op.EQ rfl,
   c7_binop_rule.2.1 Op.PLUS Typ.string Typ.integer
      { pass_ := 1, num_passes_ := 2 } (by decide),
   c7_binop_rule.2.2.1 Op.PLUS Typ.string Typ.integer
      { pass_ := 2, num_passes_ := 2 } (by decide) (by decide),
   c7_binop_rule.2.2.2 Op.PLUS Typ.string
      { pass_ := 2, num_passes_ := 2 } (by decide) (by decide) (by decide)
      (by decide)⟩

/-- C8: a string literal of exactly `STRING_SIZE - 1` bytes produces no
diagnostic, one of `STRING_SIZE` bytes or more produces the oversized-string
diagnostic, and in both cases the inferred type is string of byte size
`STRING_SIZE`. -/
theorem c8_string_literal_bound (env : Env) (st : AnalyserState) (id : Nat)
    (s : String) :
    (s.utf8ByteSize = STRING_SIZE - 1 →
      visitExpr env (Expr.str id s) st =
        some (st.writeType id ⟨Typ.string, STRING_SIZE, ""⟩)) ∧
    (STRING_SIZE ≤ s.utf8ByteSize →
      visitExpr env (Expr.str id s) st =
        some ((st.addErr (Diag.stringTooLong s)).writeType id
          ⟨Typ.string, STRING_SIZE, ""⟩)) := by
  constructor
  · intro h
    rw [visitExpr, if_neg (by rw [h]; omega)]
  · intro h
    rw [visitExpr, if_pos (by unfold STRING_SIZE at h ⊢; omega)]

/-- C8, witness: a 63-byte literal passes without a diagnostic, a 64-byte
literal is reported; both get type string(64). -/
theorem c8_string_literal_bound_witness :
    visitExpr envD (Expr.str 1 (String.mk (List.replicate 63 'a'))) {} =
      some (AnalyserState.writeType {} 1 ⟨Typ.string, STRING_SIZE, ""⟩) ∧
    visitExpr envD (Expr.str 1 (String.mk (List.replicate 64 'a'))) {} =
      some (AnalyserState.writeType
        (AnalyserState.addErr {}
          (Diag.stringTooLong (String.mk (List.replicate 64 'a')))) 1
        ⟨Typ.string, STRING_SIZE, ""⟩) :=
  ⟨(c8_string_literal_bound envD {} 1 (String.mk (List.replicate 63 'a'))).1
      (by decide),
   (c8_string_literal_bound envD {} 1 (String.mk (List.replicate 64 'a'))).2
      (by decide)⟩

/-- C9: for the program with two BEGIN probes and no other errors, analysis
with any number of passes `numPasses ≥ 1` fails exactly on the final pass:
`analyse` returns `numPasses` and the only diagnostic ever emitted is the
single "More than one BEGIN probe defined" of the final walk. -/
theorem c9_two_begin_probes (num_passes : Nat) (h : 1 ≤ num_passes) :
    ∃ st2, analyse envD beginProg [] num_passes = some (st2, num_passes) ∧
      st2.err_ = [Diag.multipleBEGIN] ∧ st2.out_ = [Diag.multipleBEGIN] := by
  have key := analyseGo_beginProg (num_passes - 1) 1 (initState [] num_passes)
    (by simp [initState]; omega) rfl rfl rfl
  rw [show num_passes - 1 + 1 = num_passes from by omega] at key
  exact ⟨_, key, rfl, rfl⟩

/-- C9, witness: with two passes, the two-BEGIN program fails at pass 2 with
exactly the duplicate-BEGIN diagnostic. -/
theorem c9_two_begin_probes_witness :
    ∃ st2, analyse envD beginProg [] 2 = some (st2, 2) ∧
      st2.err_ = [Diag.multipleBEGIN] ∧ st2.out_ = [Diag.multipleBEGIN] :=
  c9_two_begin_probes 2 (by omega)

/-- C10: in `check_arg`, an argument under the literal requirement that is
not a literal node of the required type is reported on every pass (no
final-pass condition), while an argument checked without the literal
requirement whose type kind differs from the required kind passes silently
on a non-final pass and is reported on the final pass. -/
theorem c10_check_arg_strictness (func : String) (args : List Expr)
    (ty : Typ) (n : Nat) (arg : Expr) (st : AnalyserState)
    (h : args.get? n = some arg) :
    (arg.is_literal = false ∨ (st.typeOf arg.nodeId).type ≠ ty →
      check_arg func (some args) ty n true st =
        some (st.addErr
          (Diag.argLiteralMismatch func ty (st.typeOf arg.nodeId).type),
          false)) ∧
    ((st.typeOf arg.nodeId).type ≠ ty → st.is_final_pass = false →
      check_arg func (some args) ty n false st = some (st, true)) ∧
    ((st.typeOf arg.nodeId).type ≠ ty → st.is_final_pass = true →
      check_arg func (some args) ty n false st =
        some (st.addErr
          (Diag.argTypeMismatch func ty (st.typeOf arg.nodeId).type),
          false)) := by
  refine ⟨fun h1 => ?_, fun h1 h2 => ?_, fun h1 h2 => ?_⟩
  · rcases h1 with h1 | h1 <;> (rw [check_arg, h]; simp [h1])
  · rw [check_arg, h]; simp [h1, h2]
  · rw [check_arg, h]; simp [h1, h2]

/-- C10, witness: an integer literal where a string literal is required is
reported on pass 1 of 2; the same type mismatch without the literal
requirement passes on pass 1 and is reported on pass 2 (the final pass). -/
theorem c10_check_arg_strictness_witness :
    check_arg "reg" (some [Expr.integer 5 1]) Typ.string 0 true
        { pass_ := 1, num_passes_ := 2 } =
      some (AnalyserState.addErr { pass_ := 1, num_passes_ := 2 }
        (Diag.argLiteralMismatch "reg" Typ.string Typ.none), false) ∧
    check_arg "str" (some [Expr.integer 5 1]) Typ.string 0 false
        { pass_ := 1, num_passes_ := 2 } =
      some ({ pass_ := 1, num_passes_ := 2 }, true) ∧
    check_arg "str" (some [Expr.integer 5 1]) Typ.string 0 false
        { pass_ := 2, num_passes_ := 2 } =
      some (AnalyserState.addErr { pass_ := 2, num_passes_ := 2 }
        (Diag.argTypeMismatch "str" Typ.string Typ.none), false) :=
  ⟨(c10_check_arg_strictness "reg" [Expr.integer 5 1] Typ.string 0
      (Expr.integer 5 1) { pass_ := 1, num_passes_ := 2 } rfl).1
      (Or.inr (by decide)),
   (c10_check_arg_strictness "str" [Expr.integer 5 1] Typ.string 0
      (Expr.integer 5 1) { pass_ := 1, num_passes_ := 2 } rfl).2.1
      (by decide) (by decide),
   (c10_check_arg_strictness "str" [Expr.integer 5 1] Typ.string 0
      (Expr.integer 5 1) { pass_ := 2, num_passes_ := 2 } rfl).2.2
      (by decide) (by decide)⟩

end Bpftrace

